import Mathlib

/-!
# Device dashboard (`src/App.jsx`): state transitions and render pass

A shallow embedding of the single `App` component: the six `useState` cells become
one record, every asynchronous handler becomes a function from the state and the
outcome of its request to the next state, `setTimeout` becomes an explicit timer
queue, and the returned JSX becomes a value of type `View`.
-/

namespace App

/-! ## JavaScript values -/

/-- The scalar values a field of a parsed JSON object can hold; `undefined` is what
reading a missing field gives.  Numbers are the integer-valued ones (JSON has no NaN). -/
inductive JsVal where
  | undefined
  | null
  | bool (b : Bool)
  | num (n : Int)
  | str (s : String)
  deriving DecidableEq, Repr

namespace JsVal

/-- ToBoolean. -/
def truthy : JsVal → Bool
  | undefined => false
  | null => false
  | bool b => b
  | num n => n != 0
  | str s => s != ""

/-- The operator `a || b`. -/
def or (a b : JsVal) : JsVal :=
  if a.truthy then a else b

/-- ToString, as used for a computed property key and for `+` with a string; for a
number the decimal text, which is what JavaScript writes below 10^21. -/
def toJsString : JsVal → String
  | undefined => "undefined"
  | null => "null"
  | bool true => "true"
  | bool false => "false"
  | num n => toString n
  | str s => s

end JsVal

/-- A plain object used as a dictionary with string values, as an association list
of its own properties. -/
abbrev JsObject := List (String × String)

namespace JsObject

/-- Property read `obj[k]`: the value, or `undefined` when `k` is not a property.  Only
own properties are modelled, not the names inherited from `Object.prototype`. -/
def get : JsObject → String → JsVal
  | [], _ => JsVal.undefined
  | (k1, v) :: rest, k => if k1 = k then JsVal.str v else get rest k

/-- The object literal `{ ...prev, [k]: v }`. -/
def set : JsObject → String → String → JsObject
  | [], k, v => [(k, v)]
  | (k1, v1) :: rest, k, v => if k1 = k then (k1, v) :: rest else (k1, v1) :: set rest k v

end JsObject

/-! ## Data model -/

/-- One element of the array returned by `/api/devices`, with the fields `App` reads. -/
structure Device where
  board : JsVal
  ip : JsVal
  mac : JsVal
  firmware : JsVal
  flash_size : JsVal
  sketch_size : JsVal
  free_sketch_space : JsVal
  free_heap : JsVal
  uptime : JsVal
  rssi : JsVal
  bssid : JsVal
  channel : JsVal
  subnet_mask : JsVal
  gateway : JsVal
  dns : JsVal
  status : JsVal
  last_updated : JsVal
  deriving DecidableEq, Repr

/-- One element of the array returned by `/api/events`. -/
structure MotionEvent where
  id : JsVal
  board : JsVal
  motion_time : JsVal
  deriving DecidableEq, Repr

/-- The six `useState` cells of `App` (lines 5-20). -/
structure AppState where
  serverHost : String
  devices : List Device
  events : List MotionEvent
  error : String
  toggleResponses : JsObject
  deviceStatuses : JsObject
  deriving DecidableEq, Repr

/-- The state on mount. -/
def AppState.initial : AppState :=
  { serverHost := "192.168.0.73:3000", devices := [], events := [], error := "",
    toggleResponses := [], deviceStatuses := [] }

/-- What `await fetch(url)` followed by reading the body can do: `fetch` rejects with
an exception carrying `message`, or it resolves to a response with its `ok` flag whose
body read (`res.json()` / `res.text()`) either throws with a message or gives a value. -/
inductive FetchResult (α : Type) where
  | rejected (message : String)
  | response (ok : Bool) (body : Except String α)

/-! ## Handlers -/

/-- Lines 25-35. -/
def fetchDevices (s : AppState) : FetchResult (List Device) → AppState
  | .rejected message => { s with error := message }
  | .response false _ => { s with error := "Network response was not ok" }
  | .response true (.error message) => { s with error := message }
  | .response true (.ok data) => { s with devices := data, error := "" }

/-- Lines 40-51. -/
def fetchEvents (s : AppState) : FetchResult (List MotionEvent) → AppState
  | .rejected message => { s with error := message }
  | .response false _ => { s with error := "Network response was not ok" }
  | .response true (.error message) => { s with error := message }
  | .response true (.ok data) => { s with events := data, error := "" }

/-- Lines 56-71. -/
def fetchDeviceStatus (s : AppState) (device : Device) : FetchResult String → AppState
  | .response true (.ok statusText) =>
    { s with deviceStatuses := s.deviceStatuses.set device.board.toJsString statusText }
  | _ =>
    { s with deviceStatuses := s.deviceStatuses.set device.board.toJsString "Offline" }

/-- The state update of `toggleLED` (lines 101-118), without the timer it schedules:
the response is read whatever its `ok` flag is. -/
def toggleLEDUpdate (s : AppState) (device : Device) : FetchResult String → AppState
  | .response _ (.ok text) =>
    { s with toggleResponses := s.toggleResponses.set device.board.toJsString text }
  | .response _ (.error message) =>
    { s with toggleResponses :=
        s.toggleResponses.set device.board.toJsString ("Error: " ++ message) }
  | .rejected message =>
    { s with toggleResponses :=
        s.toggleResponses.set device.board.toJsString ("Error: " ++ message) }

/-- The callback handed to `setTimeout` at lines 106-108 and 114-116. -/
def clearToggleResponse (s : AppState) (key : String) : AppState :=
  { s with toggleResponses := s.toggleResponses.set key "" }

/-! ## Timers -/

/-- The component together with the clock and the pending `setTimeout` callbacks:
each timer is the time at which it is due and the property key it clears. -/
structure TimedState where
  app : AppState
  now : Nat
  timers : List (Nat × String)
  deriving DecidableEq, Repr

/-- Lines 101-118 in full: the state update, then `setTimeout(..., 10000)`.  Both
branches schedule the same callback and nothing cancels an earlier timer. -/
def toggleLED (t : TimedState) (device : Device) (r : FetchResult String) : TimedState :=
  { t with app := toggleLEDUpdate t.app device r,
           timers := t.timers ++ [(t.now + 10000, device.board.toJsString)] }

/-- Time passes by `dt` milliseconds: every timer that is due by then runs its callback,
in queue order, and leaves the queue. -/
def elapse (t : TimedState) (dt : Nat) : TimedState :=
  { app := ((t.timers.filter (fun p => decide (p.1 ≤ t.now + dt))).map Prod.snd).foldl
             clearToggleResponse t.app,
    now := t.now + dt,
    timers := t.timers.filter (fun p => !decide (p.1 ≤ t.now + dt)) }

/-- What can happen to the mounted component. -/
inductive Step where
  | setServerHost (value : String)
  | devicesResolved (r : FetchResult (List Device))
  | eventsResolved (r : FetchResult (List MotionEvent))
  | statusResolved (device : Device) (r : FetchResult String)
  | toggleResolved (device : Device) (r : FetchResult String)
  | elapsed (dt : Nat)

/-- One step of the timed component. -/
def step (t : TimedState) : Step → TimedState
  | .setServerHost value => { t with app := { t.app with serverHost := value } }
  | .devicesResolved r => { t with app := fetchDevices t.app r }
  | .eventsResolved r => { t with app := fetchEvents t.app r }
  | .statusResolved device r => { t with app := fetchDeviceStatus t.app device r }
  | .toggleResolved device r => toggleLED t device r
  | .elapsed dt => elapse t dt

/-- A sequence of steps, in order. -/
def run (t : TimedState) (steps : List Step) : TimedState :=
  steps.foldl step t

/-- A resolution of one of the two list fetches of lines 88-96. -/
inductive Resolution where
  | roster (r : FetchResult (List Device))
  | motion (r : FetchResult (List MotionEvent))

/-- Apply one list-fetch resolution. -/
def Resolution.apply (s : AppState) : Resolution → AppState
  | .roster r => fetchDevices s r
  | .motion r => fetchEvents s r

/-- Apply list-fetch resolutions in order. -/
def applyAll (s : AppState) (rs : List Resolution) : AppState :=
  rs.foldl Resolution.apply s

/-! ## Render pass (lines 120-292) -/

/-- The child of a `<td>`: a JSX expression value, or the Toggle LED button bound to
its device. -/
inductive Cell where
  | text (v : JsVal)
  | toggleButton (device : Device)
  deriving DecidableEq, Repr

/-- A `<tr>` of a table body. -/
inductive TableRow where
  | placeholder (colSpan : Nat) (text : String)
  | data (key : JsVal) (cells : List Cell)
  deriving DecidableEq, Repr

/-- The rendered page. -/
structure View where
  hostInput : String
  banner : Option String
  deviceHeader : List String
  deviceBody : List TableRow
  eventHeader : List String
  eventBody : List TableRow
  deriving DecidableEq, Repr

/-- Line 138: `error && <div>error</div>`. -/
def errorBanner (error : String) : Option String :=
  if (JsVal.str error).truthy then some error else none

/-- Lines 146-170. -/
def deviceHeader : List String :=
  ["Board", "IP", "MAC", "Firmware", "Flash Size", "Sketch Size", "Free Sketch Space",
   "Free Heap", "Uptime (sec)", "RSSI", "BSSID", "Channel", "Subnet Mask", "Gateway",
   "DNS", "Status", "Last Updated", "Action", "Response"]

/-- Lines 260-262. -/
def eventHeader : List String :=
  ["ID", "Board", "Motion Time"]

/-- Lines 185-245: the row of one device. -/
def deviceRow (toggleResponses : JsObject) (device : Device) : TableRow :=
  .data device.board
    [ .text device.board,
      .text device.ip,
      .text device.mac,
      .text (device.firmware.or (.str "-")),
      .text (device.flash_size.or (.str "-")),
      .text (device.sketch_size.or (.str "-")),
      .text (device.free_sketch_space.or (.str "-")),
      .text (device.free_heap.or (.str "-")),
      .text (device.uptime.or (.str "-")),
      .text (device.rssi.or (.str "-")),
      .text (device.bssid.or (.str "-")),
      .text (device.channel.or (.str "-")),
      .text (device.subnet_mask.or (.str "-")),
      .text (device.gateway.or (.str "-")),
      .text (device.dns.or (.str "-")),
      .text (device.status.or (.str "Offline")),
      .text device.last_updated,
      .toggleButton device,
      .text ((toggleResponses.get device.board.toJsString).or (.str "")) ]

/-- Lines 174-247. -/
def deviceBody (devices : List Device) (toggleResponses : JsObject) : List TableRow :=
  if devices.length = 0 then [.placeholder 19 "No devices found."]
  else devices.map (deviceRow toggleResponses)

/-- Lines 274-285: the row of one event; `toLocaleString` stands for
`new Date(_).toLocaleString("en-US", timeZone "America/Phoenix")`. -/
def eventRow (toLocaleString : String → String) (event : MotionEvent) : TableRow :=
  .data event.id
    [ .text event.id,
      .text event.board,
      .text (.str (toLocaleString (event.motion_time.toJsString ++ "Z"))) ]

/-- Lines 266-287. -/
def eventBody (toLocaleString : String → String) (events : List MotionEvent) : List TableRow :=
  if events.length = 0 then [.placeholder 3 "No motion events found."]
  else events.map (eventRow toLocaleString)

/-- The JSX returned by `App`. -/
def render (toLocaleString : String → String) (s : AppState) : View :=
  { hostInput := s.serverHost,
    banner := errorBanner s.error,
    deviceHeader := deviceHeader,
    deviceBody := deviceBody s.devices s.toggleResponses,
    eventHeader := eventHeader,
    eventBody := eventBody toLocaleString s.events }

/-- The `key` attribute of a data row; a placeholder row has none. -/
def TableRow.key? : TableRow → Option JsVal
  | .data key _ => some key
  | .placeholder _ _ => none

/-- The `i`-th `<td>` of a data row, counted from 0. -/
def TableRow.cell? : TableRow → Nat → Option Cell
  | .data _ cells, i => cells.get? i
  | .placeholder _ _, _ => none

/-- Whether a row is one of the two "nothing found" rows. -/
def TableRow.isPlaceholder : TableRow → Bool
  | .data _ _ => false
  | .placeholder _ _ => true

/-- The Status cell of a device row: column 15 under the header of lines 146-170. -/
def statusCell (toggleResponses : JsObject) (device : Device) : Option Cell :=
  (deviceRow toggleResponses device).cell? 15

/-- The Last Updated cell of a device row: column 16. -/
def lastUpdatedCell (toggleResponses : JsObject) (device : Device) : Option Cell :=
  (deviceRow toggleResponses device).cell? 16

/-- The Response cell of a device row: column 18. -/
def responseCell (toggleResponses : JsObject) (device : Device) : Option Cell :=
  (deviceRow toggleResponses device).cell? 18

/-! ## Vocabulary of the properties -/

/-- The message of the exception that reaches the `catch` block of a handler that
tests `res.ok` (`fetchDevices`, `fetchEvents`, `fetchDeviceStatus`): `none` when the
`try` block runs to its end. -/
def FetchResult.caught {α : Type} : FetchResult α → Option String
  | .rejected message => some message
  | .response false _ => some "Network response was not ok"
  | .response true (.error message) => some message
  | .response true (.ok _) => none

/-- The caught message of a list-fetch resolution. -/
def Resolution.caught : Resolution → Option String
  | .roster r => r.caught
  | .motion r => r.caught

/-- The columns whose cell is written `device.field || "-"` (lines 192-227), by
position under the header. -/
def dashColumns : List (Nat × (Device → JsVal)) :=
  [ (3, Device.firmware), (4, Device.flash_size), (5, Device.sketch_size),
    (6, Device.free_sketch_space), (7, Device.free_heap), (8, Device.uptime),
    (9, Device.rssi), (10, Device.bssid), (11, Device.channel),
    (12, Device.subnet_mask), (13, Device.gateway), (14, Device.dns) ]

/-- The object with none of the fields present. -/
def Device.empty : Device :=
  { board := .undefined, ip := .undefined, mac := .undefined, firmware := .undefined,
    flash_size := .undefined, sketch_size := .undefined, free_sketch_space := .undefined,
    free_heap := .undefined, uptime := .undefined, rssi := .undefined, bssid := .undefined,
    channel := .undefined, subnet_mask := .undefined, gateway := .undefined,
    dns := .undefined, status := .undefined, last_updated := .undefined }

/-- The roster entry of the scenario: board "A" at 10.0.0.1, nothing but the three
identity fields. -/
def deviceA : Device :=
  { Device.empty with
    board := .str "A", ip := .str "10.0.0.1", mac := .str "AA:BB:CC:DD:EE:FF" }

/-- A second roster entry, board "B", which reports its fields. -/
def deviceB : Device :=
  { Device.empty with
    board := .str "B", ip := .str "10.0.0.2", mac := .str "AA:BB:CC:DD:EE:00",
    firmware := .str "1.0.3", rssi := .num (-61), channel := .num 6, uptime := .num 0,
    status := .str "online", last_updated := .str "2025-03-01 10:00:00" }

/-! ## Lemmas on objects and handlers -/

theorem JsObject.get_set (o : JsObject) (k v k2 : String) :
    (JsObject.set o k v).get k2 = if k2 = k then JsVal.str v else o.get k2 := by
  induction o with
  | nil =>
    by_cases h : k = k2
    · simp [JsObject.set, JsObject.get, h]
    · have h2 : ¬ k2 = k := fun e => h e.symm
      simp [JsObject.set, JsObject.get, h, h2]
  | cons p rest ih =>
    obtain ⟨k1, v1⟩ := p
    by_cases h1 : k1 = k
    · by_cases h2 : k2 = k
      · simp [JsObject.set, JsObject.get, h1, h2]
      · have h3 : ¬ k = k2 := fun e => h2 e.symm
        simp [JsObject.set, JsObject.get, h1, h2, h3]
    · by_cases h2 : k2 = k
      · subst h2
        simp [JsObject.set, JsObject.get, h1, ih]
      · by_cases h3 : k1 = k2
        · simp [JsObject.set, JsObject.get, h1, h2, h3]
        · simp [JsObject.set, JsObject.get, h1, h2, h3, ih]

theorem fetchDevices_toggleResponses (s : AppState) (r : FetchResult (List Device)) :
    (fetchDevices s r).toggleResponses = s.toggleResponses := by
  unfold fetchDevices; split <;> rfl

theorem fetchEvents_toggleResponses (s : AppState) (r : FetchResult (List MotionEvent)) :
    (fetchEvents s r).toggleResponses = s.toggleResponses := by
  unfold fetchEvents; split <;> rfl

theorem fetchDeviceStatus_toggleResponses (s : AppState) (d : Device)
    (r : FetchResult String) :
    (fetchDeviceStatus s d r).toggleResponses = s.toggleResponses := by
  unfold fetchDeviceStatus; split <;> rfl

theorem get_foldl_clear (keys : List String) (a : AppState) (k : String)
    (h : k ∉ keys) :
    (keys.foldl clearToggleResponse a).toggleResponses.get k = a.toggleResponses.get k := by
  induction keys generalizing a with
  | nil => rfl
  | cons k1 rest ih =>
    have hk : ¬ k = k1 := fun e => h (by simp [e])
    have hr : k ∉ rest := fun e => h (by simp [e])
    rw [List.foldl_cons, ih _ hr]
    simp [clearToggleResponse, JsObject.get_set, hk]

theorem now_le_step (t : TimedState) (st : Step) : t.now ≤ (step t st).now := by
  cases st <;> simp [step, toggleLED, elapse]

theorem now_le_run (steps : List Step) (t : TimedState) : t.now ≤ (run t steps).now := by
  induction steps generalizing t with
  | nil => exact Nat.le_refl _
  | cons st rest ih =>
    exact Nat.le_trans (now_le_step t st) (ih (step t st))

/-- While no toggle on `key` resolves and no timer for `key` comes due, the entry of
`key` is not written. -/
theorem entry_kept (key : String) (bound : Nat) (steps : List Step) (t : TimedState)
    (hsteps : ∀ st ∈ steps, ∀ d r, st = Step.toggleResolved d r → d.board.toJsString ≠ key)
    (hpending : ∀ p ∈ t.timers, p.2 = key → bound < p.1)
    (hnow : (run t steps).now ≤ bound) :
    (run t steps).app.toggleResponses.get key = t.app.toggleResponses.get key := by
  induction steps generalizing t with
  | nil => rfl
  | cons st rest ih =>
    have hrest : ∀ st2 ∈ rest, ∀ d r, st2 = Step.toggleResolved d r →
        d.board.toJsString ≠ key := fun st2 h2 => hsteps st2 (List.mem_cons_of_mem _ h2)
    have hhead := hsteps st (List.mem_cons_self _ _)
    have hrun : run t (st :: rest) = run (step t st) rest := rfl
    rw [hrun] at hnow ⊢
    have hstepnow : (step t st).now ≤ bound := Nat.le_trans (now_le_run rest _) hnow
    have hp2 : ∀ p ∈ (step t st).timers, p.2 = key → bound < p.1 := by
      intro p hp hk
      cases st with
      | setServerHost v => exact hpending p hp hk
      | devicesResolved r => exact hpending p hp hk
      | eventsResolved r => exact hpending p hp hk
      | statusResolved d r => exact hpending p hp hk
      | toggleResolved d r =>
        simp only [step, toggleLED, List.mem_append, List.mem_singleton] at hp
        rcases hp with hp | hp
        · exact hpending p hp hk
        · subst hp
          exact absurd hk (hhead d r rfl)
      | elapsed dt =>
        simp only [step, elapse, List.mem_filter] at hp
        exact hpending p hp.1 hk
    rw [ih (step t st) hrest hp2 hnow]
    cases st with
    | setServerHost v => rfl
    | devicesResolved r => simp [step, fetchDevices_toggleResponses]
    | eventsResolved r => simp [step, fetchEvents_toggleResponses]
    | statusResolved d r => simp [step, fetchDeviceStatus_toggleResponses]
    | toggleResolved d r =>
      have hne : ¬ key = d.board.toJsString := fun e => hhead d r rfl e.symm
      simp only [step, toggleLED, toggleLEDUpdate]
      split <;> simp [JsObject.get_set, hne]
    | elapsed dt =>
      simp only [step, elapse]
      apply get_foldl_clear
      intro hmem
      simp only [List.mem_map, List.mem_filter, decide_eq_true_eq] at hmem
      obtain ⟨p, ⟨hp, hdue⟩, hk⟩ := hmem
      have h1 := hpending p hp hk
      have h2 : (step t (Step.elapsed dt)).now = t.now + dt := rfl
      omega

/-! ## Roster and event fetches -/

/-- C1: a failed roster or event fetch (a non-2xx response or a thrown exception, whose
message, like every message the `try` blocks of lines 26-31 and 41-47 can throw, is not
empty) keeps the device and event collections, hence the rendered device and event rows,
and sets the error to the caught message, so that the banner is rendered; after a
non-2xx response the message is "Network response was not ok"; and the banner is
rendered exactly when the error string is non-empty. -/
theorem failed_fetch_keeps_data (f : String → String) (s : AppState) :
    (∀ (res : Resolution) (m : String), res.caught = some m → m ≠ "" →
      (res.apply s).devices = s.devices ∧
      (res.apply s).events = s.events ∧
      (render f (res.apply s)).deviceBody = (render f s).deviceBody ∧
      (render f (res.apply s)).eventBody = (render f s).eventBody ∧
      (res.apply s).error = m ∧
      (render f (res.apply s)).banner = some m) ∧
    (∀ body, (render f (fetchDevices s (.response false body))).banner =
      some "Network response was not ok") ∧
    (∀ body, (render f (fetchEvents s (.response false body))).banner =
      some "Network response was not ok") ∧
    (∀ s2 : AppState, (render f s2).banner.isSome = true ↔ s2.error ≠ "") := by
  have hb : ∀ e : String, errorBanner e = if e = "" then none else some e := by
    intro e
    by_cases he : e = "" <;> simp [errorBanner, JsVal.truthy, he]
  refine ⟨?_, fun _ => rfl, fun _ => rfl, ?_⟩
  · intro res m h hm
    cases res with
    | roster r =>
      cases r with
      | rejected msg =>
        simp only [Resolution.caught, FetchResult.caught, Option.some.injEq] at h
        subst h
        simp [Resolution.apply, fetchDevices, render, hb, hm]
      | response ok body =>
        cases ok with
        | false =>
          simp only [Resolution.caught, FetchResult.caught, Option.some.injEq] at h
          subst h
          simp [Resolution.apply, fetchDevices, render, hb]
        | true =>
          cases body with
          | error msg =>
            simp only [Resolution.caught, FetchResult.caught, Option.some.injEq] at h
            subst h
            simp [Resolution.apply, fetchDevices, render, hb, hm]
          | ok data => simp [Resolution.caught, FetchResult.caught] at h
    | motion r =>
      cases r with
      | rejected msg =>
        simp only [Resolution.caught, FetchResult.caught, Option.some.injEq] at h
        subst h
        simp [Resolution.apply, fetchEvents, render, hb, hm]
      | response ok body =>
        cases ok with
        | false =>
          simp only [Resolution.caught, FetchResult.caught, Option.some.injEq] at h
          subst h
          simp [Resolution.apply, fetchEvents, render, hb]
        | true =>
          cases body with
          | error msg =>
            simp only [Resolution.caught, FetchResult.caught, Option.some.injEq] at h
            subst h
            simp [Resolution.apply, fetchEvents, render, hb, hm]
          | ok data => simp [Resolution.caught, FetchResult.caught] at h
  · intro s2
    by_cases he : s2.error = "" <;> simp [render, hb, he]

/-- C1 at a roster of one device with an earlier event, and a roster fetch that rejects
with "Failed to fetch": the device and the event stay and the banner shows the message. -/
theorem failed_fetch_keeps_data_witness :
    (Resolution.roster (.rejected "Failed to fetch")).caught = some "Failed to fetch" ∧
    "Failed to fetch" ≠ "" ∧
    ((Resolution.roster (.rejected "Failed to fetch")).apply
        { AppState.initial with
          devices := [deviceA],
          events := [⟨.num 1, .str "A", .str "2025-03-01 10:00:00"⟩] }).devices
      = [deviceA] ∧
    (render id ((Resolution.roster (.rejected "Failed to fetch")).apply
        { AppState.initial with
          devices := [deviceA],
          events := [⟨.num 1, .str "A", .str "2025-03-01 10:00:00"⟩] })).banner
      = some "Failed to fetch" :=
  have h := (failed_fetch_keeps_data id
      { AppState.initial with
        devices := [deviceA],
        events := [⟨.num 1, .str "A", .str "2025-03-01 10:00:00"⟩] }).1
    (.roster (.rejected "Failed to fetch")) "Failed to fetch" rfl (by decide)
  ⟨rfl, by decide, h.1, h.2.2.2.2.2⟩

/-- C2: a successful roster fetch replaces the devices and clears the error, a
successful event fetch replaces the events and clears the error, and each leaves every
other field as it was. -/
theorem successful_fetch_replaces (s : AppState) (R : List Device) (E : List MotionEvent) :
    ((fetchDevices s (.response true (.ok R))).devices = R ∧
     (fetchDevices s (.response true (.ok R))).error = "" ∧
     (fetchDevices s (.response true (.ok R))).events = s.events ∧
     (fetchDevices s (.response true (.ok R))).deviceStatuses = s.deviceStatuses ∧
     (fetchDevices s (.response true (.ok R))).toggleResponses = s.toggleResponses ∧
     (fetchDevices s (.response true (.ok R))).serverHost = s.serverHost) ∧
    ((fetchEvents s (.response true (.ok E))).events = E ∧
     (fetchEvents s (.response true (.ok E))).error = "" ∧
     (fetchEvents s (.response true (.ok E))).devices = s.devices ∧
     (fetchEvents s (.response true (.ok E))).deviceStatuses = s.deviceStatuses ∧
     (fetchEvents s (.response true (.ok E))).toggleResponses = s.toggleResponses ∧
     (fetchEvents s (.response true (.ok E))).serverHost = s.serverHost) :=
  ⟨⟨rfl, rfl, rfl, rfl, rfl, rfl⟩, ⟨rfl, rfl, rfl, rfl, rfl, rfl⟩⟩

/-- C9: the error is one slot with last write wins: after any list-fetch resolutions
followed by a last one, it is "" when the last one succeeded and the last one's caught
message otherwise; a failed roster fetch followed by a successful event fetch leaves it
empty. -/
theorem error_is_last_write (s : AppState) (rs : List Resolution) (last : Resolution) :
    (applyAll s (rs ++ [last])).error = (match last.caught with
      | some m => m
      | none => "") ∧
    (∀ (r : FetchResult (List Device)) (E : List MotionEvent),
      (applyAll s [.roster r, .motion (.response true (.ok E))]).error = "") := by
  refine ⟨?_, fun _ _ => rfl⟩
  simp only [applyAll, List.foldl_append, List.foldl_cons, List.foldl_nil]
  generalize List.foldl Resolution.apply s rs = s1
  cases last with
  | roster r =>
    cases r with
    | rejected msg => rfl
    | response ok body =>
      cases ok with
      | false => rfl
      | true => cases body <;> rfl
  | motion r =>
    cases r with
    | rejected msg => rfl
    | response ok body =>
      cases ok with
      | false => rfl
      | true => cases body <;> rfl

/-! ## Status poll -/

/-- C3: a status poll of device `d` writes the entry of `d.board` only, the response
body when the poll succeeded and "Offline" otherwise, and leaves every other entry, the
error, the devices, the events and the toggle responses as they were. -/
theorem status_poll_is_local (s : AppState) (d : Device) (r : FetchResult String)
    (k : String) :
    (fetchDeviceStatus s d r).deviceStatuses.get k =
      (if k = d.board.toJsString then
        (match r with
          | .response true (.ok statusText) => JsVal.str statusText
          | _ => JsVal.str "Offline")
       else s.deviceStatuses.get k) ∧
    (fetchDeviceStatus s d r).error = s.error ∧
    (fetchDeviceStatus s d r).devices = s.devices ∧
    (fetchDeviceStatus s d r).events = s.events ∧
    (fetchDeviceStatus s d r).toggleResponses = s.toggleResponses ∧
    (fetchDeviceStatus s d r).serverHost = s.serverHost := by
  cases r with
  | rejected msg => simp [fetchDeviceStatus, JsObject.get_set]
  | response ok body =>
    cases ok with
    | false => simp [fetchDeviceStatus, JsObject.get_set]
    | true => cases body <;> simp [fetchDeviceStatus, JsObject.get_set]

/-- C4 at the scenario's roster: after the status poll of board "A" answered "OK" the
LiveStatus map holds "OK" for "A", yet the Status cell of the row shows "Offline"; and
after the poll of board "B" failed the map holds "Offline" for "B", yet the cell shows the
roster's own "online". -/
theorem status_cell_shows_roster_field :
    (fetchDeviceStatus { AppState.initial with devices := [deviceA, deviceB] } deviceA
        (.response true (.ok "OK"))).deviceStatuses.get "A" = .str "OK" ∧
    ((render id (fetchDeviceStatus { AppState.initial with devices := [deviceA, deviceB] }
        deviceA (.response true (.ok "OK")))).deviceBody.map (fun row => row.cell? 15))
      = [some (.text (.str "Offline")), some (.text (.str "online"))] ∧
    (fetchDeviceStatus { AppState.initial with devices := [deviceA, deviceB] } deviceB
        (.rejected "Failed to fetch")).deviceStatuses.get "B" = .str "Offline" ∧
    ((render id (fetchDeviceStatus { AppState.initial with devices := [deviceA, deviceB] }
        deviceB (.rejected "Failed to fetch"))).deviceBody.map (fun row => row.cell? 15))
      = [some (.text (.str "Offline")), some (.text (.str "online"))] := by
  decide

/-- C10: the render pass does not read the LiveStatus map: two states that agree on
the host, the devices, the events, the error and the toggle responses render alike. -/
theorem render_ignores_deviceStatuses (f : String → String) (s1 s2 : AppState)
    (hHost : s1.serverHost = s2.serverHost) (hDevices : s1.devices = s2.devices)
    (hEvents : s1.events = s2.events) (hError : s1.error = s2.error)
    (hToggle : s1.toggleResponses = s2.toggleResponses) :
    render f s1 = render f s2 := by
  simp [render, hHost, hDevices, hEvents, hError, hToggle]

/-- C10 at two states that differ in the LiveStatus map only. -/
theorem render_ignores_deviceStatuses_witness :
    ({ AppState.initial with devices := [deviceA], deviceStatuses := [("A", "OK")] }
        : AppState).deviceStatuses
      ≠ ({ AppState.initial with devices := [deviceA], deviceStatuses := [("A", "Offline")] }
        : AppState).deviceStatuses ∧
    render id { AppState.initial with devices := [deviceA], deviceStatuses := [("A", "OK")] }
      = render id
          { AppState.initial with devices := [deviceA], deviceStatuses := [("A", "Offline")] } :=
  ⟨by decide,
   render_ignores_deviceStatuses id
     { AppState.initial with devices := [deviceA], deviceStatuses := [("A", "OK")] }
     { AppState.initial with devices := [deviceA], deviceStatuses := [("A", "Offline")] }
     rfl rfl rfl rfl rfl⟩

/-! ## LED toggle -/

/-- C6 at a 500 response to the LED request: `toggleLED` records the response body,
where the status poll given the same response takes its failure branch; only a rejected
request is recorded as "Error: " followed by the message. -/
theorem toggle_records_body_of_failed_response :
    (toggleLEDUpdate AppState.initial deviceA
        (.response false (.ok "Internal Server Error"))).toggleResponses.get "A"
      = .str "Internal Server Error" ∧
    (fetchDeviceStatus AppState.initial deviceA
        (.response false (.ok "Internal Server Error"))).deviceStatuses.get "A"
      = .str "Offline" ∧
    (toggleLEDUpdate AppState.initial deviceA
        (.rejected "Failed to fetch")).toggleResponses.get "A"
      = .str "Error: Failed to fetch" := by
  decide

/-- C5, as stated, fails: "LED ON" is set at 0 ms and "LED OFF" at 8000 ms on the same
device; "LED OFF" is displayed at 9999 ms, and at 10000 ms, two seconds after it was set
and with no later toggle, the first toggle's timer has emptied the cell. -/
theorem second_toggle_text_cleared_early :
    (run ⟨{ AppState.initial with devices := [deviceA] }, 0, []⟩
        [.toggleResolved deviceA (.response true (.ok "LED ON")), .elapsed 8000,
         .toggleResolved deviceA (.response true (.ok "LED OFF")), .elapsed 1999]).now = 9999 ∧
    responseCell (run ⟨{ AppState.initial with devices := [deviceA] }, 0, []⟩
        [.toggleResolved deviceA (.response true (.ok "LED ON")), .elapsed 8000,
         .toggleResolved deviceA (.response true (.ok "LED OFF")), .elapsed 1999]
        ).app.toggleResponses deviceA = some (.text (.str "LED OFF")) ∧
    (run ⟨{ AppState.initial with devices := [deviceA] }, 0, []⟩
        [.toggleResolved deviceA (.response true (.ok "LED ON")), .elapsed 8000,
         .toggleResolved deviceA (.response true (.ok "LED OFF")), .elapsed 2000]).now = 10000 ∧
    responseCell (run ⟨{ AppState.initial with devices := [deviceA] }, 0, []⟩
        [.toggleResolved deviceA (.response true (.ok "LED ON")), .elapsed 8000,
         .toggleResolved deviceA (.response true (.ok "LED OFF")), .elapsed 2000]
        ).app.toggleResponses deviceA = some (.text (.str "")) := by
  decide

/-- C5, amended: the text recorded by a toggle resolution at time `t.now` is still the
entry and the displayed Response cell of its device at every later time before
`t.now + 10000`, provided no later toggle on that device has resolved and no timer that
an earlier toggle on that device left pending has come due. -/
theorem toggle_text_kept (t : TimedState) (device : Device) (r : FetchResult String)
    (steps : List Step)
    (hLater : ∀ st ∈ steps, ∀ d r2, st = Step.toggleResolved d r2 →
      d.board.toJsString ≠ device.board.toJsString)
    (hEarlier : ∀ p ∈ t.timers, p.2 = device.board.toJsString →
      (run (toggleLED t device r) steps).now < p.1)
    (hTime : (run (toggleLED t device r) steps).now < t.now + 10000) :
    (toggleLED t device r).app.toggleResponses.get device.board.toJsString =
      (match r with
        | .response _ (.ok text) => JsVal.str text
        | .response _ (.error message) => JsVal.str ("Error: " ++ message)
        | .rejected message => JsVal.str ("Error: " ++ message)) ∧
    (run (toggleLED t device r) steps).app.toggleResponses.get device.board.toJsString =
      (toggleLED t device r).app.toggleResponses.get device.board.toJsString ∧
    responseCell (run (toggleLED t device r) steps).app.toggleResponses device =
      responseCell (toggleLED t device r).app.toggleResponses device := by
  have hkeep := entry_kept device.board.toJsString (run (toggleLED t device r) steps).now
    steps (toggleLED t device r) hLater
    (by
      intro p hp hk
      simp only [toggleLED, List.mem_append, List.mem_singleton] at hp
      rcases hp with hp | hp
      · exact hEarlier p hp hk
      · subst hp
        exact hTime)
    (Nat.le_refl _)
  refine ⟨?_, hkeep, ?_⟩
  · cases r with
    | rejected msg => simp [toggleLED, toggleLEDUpdate, JsObject.get_set]
    | response ok body => cases body <;> simp [toggleLED, toggleLEDUpdate, JsObject.get_set]
  · simp only [responseCell, deviceRow, TableRow.cell?, hkeep]

/-- The amended C5 after the roster of boards "A" and "B" arrived and a toggle on "B"
resolved at 0 ms: a toggle on "A" resolves at 5000 ms, and 9999 ms later, after the timer
of "B" has run, the cell of "A" still shows what that toggle recorded. -/
theorem toggle_text_kept_witness :
    (run (toggleLED
        (run ⟨AppState.initial, 0, []⟩
          [.devicesResolved (.response true (.ok [deviceA, deviceB])),
           .toggleResolved deviceB (.response true (.ok "LED ON")), .elapsed 5000])
        deviceA (.response true (.ok "LED ON"))) [.elapsed 9999]).now = 14999 ∧
    responseCell (run (toggleLED
        (run ⟨AppState.initial, 0, []⟩
          [.devicesResolved (.response true (.ok [deviceA, deviceB])),
           .toggleResolved deviceB (.response true (.ok "LED ON")), .elapsed 5000])
        deviceA (.response true (.ok "LED ON"))) [.elapsed 9999]).app.toggleResponses deviceA
      = responseCell (toggleLED
        (run ⟨AppState.initial, 0, []⟩
          [.devicesResolved (.response true (.ok [deviceA, deviceB])),
           .toggleResolved deviceB (.response true (.ok "LED ON")), .elapsed 5000])
        deviceA (.response true (.ok "LED ON"))).app.toggleResponses deviceA :=
  ⟨by decide,
   (toggle_text_kept
      (run ⟨AppState.initial, 0, []⟩
        [.devicesResolved (.response true (.ok [deviceA, deviceB])),
         .toggleResolved deviceB (.response true (.ok "LED ON")), .elapsed 5000])
      deviceA (.response true (.ok "LED ON")) [.elapsed 9999]
      (by simp) (by decide) (by decide)).2.2⟩

/-! ## Table bodies -/

/-- C7, as stated, fails: the roster entry of board "A" has neither `status` nor
`last_updated`; its Status cell shows "Offline" and its Last Updated cell holds the
missing value itself, neither shows "-". -/
theorem missing_status_not_dashed :
    deviceA.status.truthy = false ∧
    deviceA.last_updated.truthy = false ∧
    (deviceBody [deviceA] []).map (fun row => row.cell? 15)
      = [some (.text (.str "Offline"))] ∧
    (deviceBody [deviceA] []).map (fun row => row.cell? 16)
      = [some (.text .undefined)] ∧
    (deviceBody [deviceA] []).map (fun row => row.cell? 15) ≠ [some (.text (.str "-"))] ∧
    (deviceBody [deviceA] []).map (fun row => row.cell? 16) ≠ [some (.text (.str "-"))] := by
  decide

/-- C7, amended: for a non-empty roster the body is one row per device, in roster
order, keyed by the board; in each row the twelve fields from firmware to dns show "-"
when falsy and themselves when truthy, the Status cell shows the roster's `status` when
truthy and "Offline" when falsy, and the Last Updated cell holds `last_updated` as it
is. -/
theorem device_rows (devices : List Device) (toggleResponses : JsObject)
    (hNonEmpty : devices ≠ []) :
    deviceBody devices toggleResponses = devices.map (deviceRow toggleResponses) ∧
    (deviceBody devices toggleResponses).length = devices.length ∧
    (deviceBody devices toggleResponses).map TableRow.key?
      = devices.map (fun d => some d.board) ∧
    (∀ d : Device,
      (∀ c ∈ dashColumns, (deviceRow toggleResponses d).cell? c.1
        = some (.text (if (c.2 d).truthy then c.2 d else .str "-"))) ∧
      statusCell toggleResponses d
        = some (.text (if d.status.truthy then d.status else .str "Offline")) ∧
      lastUpdatedCell toggleResponses d = some (.text d.last_updated)) := by
  have hlen : ¬ devices.length = 0 := fun h => hNonEmpty (List.length_eq_zero.mp h)
  have hbody : deviceBody devices toggleResponses
      = devices.map (deviceRow toggleResponses) := by
    simp [deviceBody, hlen]
  refine ⟨hbody, ?_, ?_, ?_⟩
  · rw [hbody, List.length_map]
  · rw [hbody, List.map_map]
    rfl
  · intro d
    refine ⟨?_, rfl, rfl⟩
    intro c hc
    simp only [dashColumns, List.mem_cons, List.mem_singleton, List.not_mem_nil,
      or_false] at hc
    rcases hc with h | h | h | h | h | h | h | h | h | h | h | h <;> subst h <;> rfl

/-- The amended C7 at the roster of boards "A" and "B": two rows keyed "A" and "B";
B's uptime 0 shows "-" and its channel 6 shows 6. -/
theorem device_rows_witness :
    ([deviceA, deviceB] : List Device) ≠ [] ∧
    (deviceBody [deviceA, deviceB] []).map TableRow.key?
      = [some (.str "A"), some (.str "B")] ∧
    (deviceRow [] deviceB).cell? 8 = some (.text (.str "-")) ∧
    (deviceRow [] deviceB).cell? 11 = some (.text (.num 6)) :=
  have h := device_rows [deviceA, deviceB] [] (by decide)
  ⟨by decide, h.2.2.1,
   (h.2.2.2 deviceB).1 (8, Device.uptime) (by simp [dashColumns]),
   (h.2.2.2 deviceB).1 (11, Device.channel) (by simp [dashColumns])⟩

/-- C8: an empty device list renders exactly one placeholder row spanning the 19
columns of the device header, an empty event list exactly one placeholder row spanning
the 3 columns of the event header, and a non-empty list renders no placeholder row. -/
theorem placeholder_rows (f : String → String) (toggleResponses : JsObject) :
    deviceBody [] toggleResponses
      = [.placeholder deviceHeader.length "No devices found."] ∧
    deviceHeader.length = 19 ∧
    eventBody f [] = [.placeholder eventHeader.length "No motion events found."] ∧
    eventHeader.length = 3 ∧
    (∀ (d : Device) (ds : List Device),
      (deviceBody (d :: ds) toggleResponses).filter TableRow.isPlaceholder = []) ∧
    (∀ (e : MotionEvent) (es : List MotionEvent),
      (eventBody f (e :: es)).filter TableRow.isPlaceholder = []) := by
  refine ⟨rfl, rfl, rfl, rfl, ?_, ?_⟩
  · intro d ds
    simp [deviceBody, List.filter_eq_nil_iff, deviceRow, TableRow.isPlaceholder]
  · intro e es
    simp [eventBody, List.filter_eq_nil_iff, eventRow, TableRow.isPlaceholder]

end App
